import Mathlib

/-!
Verification of the LegacyImage component
(src/backend/gradio_legacyimage/legacyimage.py).

The component is embedded shallowly: the constructor, `preprocess`,
`postprocess` and `check_streamable` become pure Lean functions; Python
exceptions are modelled with `Except`; the external collaborators (the
gradio processing utilities, the PIL transform operations and the base64
encoders) are a record of abstract functions that the embedded code calls
in the same places the Python code calls them.
-/

/-- Python exceptions raised by the embedded code paths. -/
inductive PyError where
  | valueError (msg : String)
  | attributeError
  deriving DecidableEq

/-- An in-memory PIL raster: its color mode, its dimensions, and the list of
channel values at each (row, column) position. -/
structure PILImage where
  mode : String
  width : Nat
  height : Nat
  px : Nat → Nat → List Nat

instance : Inhabited PILImage := ⟨⟨"", 0, 0, fun _ _ => []⟩⟩

/-- A minimal model of a numpy pixel array: its shape and its entries.
`postprocess` only dispatches on the variant and hands the array to the
external encoder, so the representation is never inspected. -/
structure NDArray where
  shape : List Nat
  val : Nat → Nat → Nat → Nat

/-- The Python runtime values that can appear in the `back` / `mask` slots of
the dictionaries flowing through `preprocess` and `postprocess`
(`np.ndarray`, `PIL.Image.Image`, `str`, `pathlib.Path`, or anything else).
Python `None` is modelled by `Option.none` around this type. -/
inductive PyObj where
  | ndarray (a : NDArray)
  | pilImage (im : PILImage)
  | pyStr (s : String)
  | pyPath (p : String)
  | pyOther (tag : String)

/-- class ImageData(GradioModel): the wire payload, an optional base64
background string and an optional base64 mask string (lines 31-33). -/
structure ImageData where
  back : Option String := none
  mask : Option String := none
  deriving DecidableEq

/-- PreprocessData TypedDict (lines 27-29): the dictionary produced by
`preprocess` and accepted by `postprocess`, with optional back/mask values. -/
structure PreprocessData where
  back : Option PyObj
  mask : Option PyObj

/-- The external collaborators the component delegates to: the gradio
decode/encode utilities, the PIL transforms, and `image_utils.format_image`
(which realises the configured output kind). They are abstract: the embedded
code only fixes where they are called. -/
structure PILOps where
  decode_base64_to_image : String → PILImage
  convertRaw : PILImage → String → PILImage
  resize_and_crop : PILImage → Nat × Nat → PILImage
  invert : PILImage → PILImage
  mirror : PILImage → PILImage
  format_image : String → PILImage → PyObj
  encode_array_to_base64 : NDArray → String
  encode_pil_to_base64 : PILImage → String
  encode_url_or_file_to_base64 : String → String

/-- PIL `Image.convert`: converting an image to the mode it already has
returns an equal copy; conversion between distinct modes is delegated to the
abstract library operation. -/
def PILImage.convert (ops : PILOps) (im : PILImage) (mode : String) : PILImage :=
  if im.mode = mode then im else ops.convertRaw im mode

/-- PIL `Image.getchannel`: extract the band with the given name (the source
passes the band name string "A"; the band index is its position in the mode
string) as a single-channel mode "L" image. -/
def PILImage.getchannel (im : PILImage) (ch : Char) : PILImage :=
  { mode := "L", width := im.width, height := im.height,
    px := fun r c => [(im.px r c).getD (im.mode.toList.indexOf ch) 0] }

/-- PIL `Image.merge`: interleave single-band images into one multi-band
image; the pixel at (r, c) lists each band's value there. -/
def imageMerge (mode : String) (bands : List PILImage) : PILImage :=
  { mode := mode,
    width := (bands.headD default).width,
    height := (bands.headD default).height,
    px := fun r c => bands.map fun b => (b.px r c).getD 0 0 }

/-- The constructor arguments of LegacyImage.__init__ that the modelled core
reads (lines 57-90), with the same defaults. Presentation-only arguments
(label, layout sizes, brush options, opacity, events) are not modelled: the
constructor only stores them. -/
structure InitOptions where
  height : Option Nat := none
  width : Option Nat := none
  image_mode : String := "RGB"
  type : String := "numpy"
  show_download_button : Bool := true
  streaming : Bool := false
  mirror_webcam : Bool := true
  show_share_button : Option Bool := none
  source : String := "upload"
  invert_colors : Bool := false
  shape : Option (Nat × Nat) := none
  tool : Option String := none
  deriving DecidableEq

/-- The attributes a successfully constructed LegacyImage instance carries
(the fields assigned in __init__, lines 114-151). Note the constructor
assigns the singular `source` and never assigns a plural `sources`. -/
structure LegacyImage where
  mirror_webcam : Bool
  type : String
  height : Option Nat
  width : Option Nat
  image_mode : String
  streaming : Bool
  show_download_button : Bool
  show_share_button : Bool
  source : String
  tool : String
  invert_colors : Bool
  shape : Option (Nat × Nat)
  deriving DecidableEq

/-- LegacyImage.__init__ (lines 114-151). Raising ValueError is modelled by
`Except.error`; `get_space_some` stands for `utils.get_space() is not None`,
used only for the `show_share_button` default. The checks happen in source
order: `type`, then `source`, then the streaming/source combination. The
`tool` argument is stored without any validation (lines 143-146). -/
def LegacyImage.init (get_space_some : Bool) (o : InitOptions) :
    Except PyError LegacyImage :=
  if o.type ∉ (["numpy", "pil", "filepath"] : List String) then
    Except.error (PyError.valueError ("Invalid value for parameter type: " ++ o.type))
  else if o.source ∉ (["upload", "webcam", "canvas"] : List String) then
    Except.error (PyError.valueError ("Invalid value for parameter source: " ++ o.source))
  else if o.streaming = true ∧ o.source ≠ "webcam" then
    Except.error (PyError.valueError "Image streaming only available if source is webcam.")
  else
    Except.ok
      { mirror_webcam := o.mirror_webcam
        type := o.type
        height := o.height
        width := o.width
        image_mode := o.image_mode
        streaming := o.streaming
        show_download_button := o.show_download_button
        show_share_button := o.show_share_button.getD get_space_some
        source := o.source
        tool := match o.tool with
          | none => if o.source = "canvas" then "sketch" else "editor"
          | some t => t
        invert_colors := o.invert_colors
        shape := o.shape }

/-- The mask flattening block of preprocess (lines 197-199): when the decoded
mask carries an alpha channel, extract the alpha band alone and replicate it
across three channels as a grayscale-as-RGB mask; otherwise keep the mask. -/
def maskFlatten (ops : PILOps) (mim : PILImage) : PILImage :=
  if mim.mode = "RGBA" then
    let alpha_data := PILImage.convert ops (mim.getchannel 'A') "L"
    imageMerge "RGB" [alpha_data, alpha_data, alpha_data]
  else mim

/-- LegacyImage.preprocess (lines 173-208). A Python `None` argument is
`Option.none`. `decode_base64_to_image(None)` raises AttributeError (None has
no string methods), as does reading `.mode` of a `None` mask at line 197; both
are modelled by `Except.error PyError.attributeError` at the exact program
points where the Python attribute access happens. The `warnings` context
around the mode conversion (lines 182-184) only suppresses advisory warnings
and has no effect on the computed value. -/
def LegacyImage.preprocess (ops : PILOps) (self : LegacyImage)
    (x : Option ImageData) : Except PyError (Option PreprocessData) :=
  match x with
  | none => Except.ok none
  | some d =>
    let mask_im : Option PILImage :=
      if self.tool = "sketch" ∧ (self.source = "upload" ∨ self.source = "webcam") then
        d.mask.map ops.decode_base64_to_image
      else none
    match d.back with
    | none => Except.error PyError.attributeError
    | some b =>
      let im := ops.decode_base64_to_image b
      let im := PILImage.convert ops im self.image_mode
      let im := match self.shape with
        | some sh => ops.resize_and_crop im sh
        | none => im
      let im := if self.invert_colors = true then ops.invert im else im
      let im :=
        if self.source = "webcam" ∧ self.mirror_webcam = true ∧ self.tool ≠ "color-sketch" then
          ops.mirror im
        else im
      if self.tool = "sketch" ∧ (self.source = "upload" ∨ self.source = "webcam") then
        match mask_im with
        | none => Except.error PyError.attributeError
        | some mim =>
          Except.ok (some { back := some (ops.format_image self.type im),
                            mask := some (ops.format_image self.type (maskFlatten ops mim)) })
      else
        Except.ok (some { back := some (ops.format_image self.type im), mask := none })

/-- The transform chain exactly as the specification states it, written from
the words of the spec for comparison with `preprocess`: (1) coerce the color
mode, (2) resize-and-crop when a fixed shape is configured, (3) invert when
configured, (4) mirror exactly when the source is the webcam, mirroring is
enabled and the tool is not color-sketch. -/
def specTransformChain (ops : PILOps) (cfg : LegacyImage) (im : PILImage) : PILImage :=
  let im := PILImage.convert ops im cfg.image_mode
  let im := match cfg.shape with
    | some sh => ops.resize_and_crop im sh
    | none => im
  let im := if cfg.invert_colors = true then ops.invert im else im
  if cfg.source = "webcam" ∧ cfg.mirror_webcam = true ∧ cfg.tool ≠ "color-sketch" then
    ops.mirror im
  else im

/-- LegacyImage.postprocess (lines 210-230): dispatch on the runtime variant
of the `back` slot; a value that is none of ndarray / PIL image / str / Path
(including Python `None`) falls through to `raise ValueError`. -/
def LegacyImage.postprocess (ops : PILOps) (y : Option PreprocessData) :
    Except PyError (Option ImageData) :=
  match y with
  | none => Except.ok none
  | some d =>
    match d.back with
    | some (PyObj.ndarray a) =>
      Except.ok (some { back := some (ops.encode_array_to_base64 a), mask := none })
    | some (PyObj.pilImage im) =>
      Except.ok (some { back := some (ops.encode_pil_to_base64 im), mask := none })
    | some (PyObj.pyStr s) =>
      Except.ok (some { back := some (ops.encode_url_or_file_to_base64 s), mask := none })
    | some (PyObj.pyPath p) =>
      Except.ok (some { back := some (ops.encode_url_or_file_to_base64 p), mask := none })
    | _ => Except.error (PyError.valueError "Cannot process this value as an Image")

/-- Whether the `back` slot holds one of the three supported variants of the
postprocess dispatch (numeric array, image object, path/URL string). -/
def supportedBack : Option PyObj → Bool
  | some (PyObj.ndarray _) => true
  | some (PyObj.pilImage _) => true
  | some (PyObj.pyStr _) => true
  | some (PyObj.pyPath _) => true
  | _ => false

/-- Reading `self.sources` (line 233): the constructor assigns only the
singular `source` attribute (line 142) and none of the arguments forwarded to
the base initialiser (lines 153-166) is named `sources`, so the attribute is
missing on the instance and the access raises AttributeError. -/
def LegacyImage.getattrSources (_self : LegacyImage) : Except PyError (List String) :=
  Except.error PyError.attributeError

/-- LegacyImage.check_streamable (lines 232-236). The Python conjunction
short-circuits: when `self.streaming` is falsy nothing else is evaluated;
when it is truthy, `self.sources` is read before the comparison. -/
def LegacyImage.check_streamable (self : LegacyImage) : Except PyError Unit :=
  if self.streaming = true then
    match self.getattrSources with
    | Except.error e => Except.error e
    | Except.ok srcs =>
      if srcs ≠ ["webcam"] then
        Except.error (PyError.valueError
          "LegacyImage streaming only available if sources is webcam. Streaming not supported with multiple sources.")
      else Except.ok ()
  else Except.ok ()

/-- A concrete RGBA raster, used as the decoded mask in concrete checks. -/
def rgbaMask : PILImage :=
  { mode := "RGBA", width := 2, height := 2, px := fun r c => [r, c, 5, 7 * r + c] }

/-- A concrete RGB raster, used as the decoded background in concrete checks. -/
def rgbImg : PILImage :=
  { mode := "RGB", width := 2, height := 2, px := fun r c => [r, c, 3] }

/-- Concrete collaborators for the witnesses and counterexamples: the decoder
returns the RGBA raster for the mask string and the RGB raster otherwise, the
transforms are identities, and the encoders return fixed base64 strings. -/
def ops0 : PILOps :=
  { decode_base64_to_image := fun s => if s = "bWFzaw==" then rgbaMask else rgbImg
    convertRaw := fun im _ => im
    resize_and_crop := fun im _ => im
    invert := fun im => im
    mirror := fun im => im
    format_image := fun _ im => PyObj.pilImage im
    encode_array_to_base64 := fun _ => "YXJy"
    encode_pil_to_base64 := fun _ => "cGls"
    encode_url_or_file_to_base64 := fun _ => "dXJs" }

/-- The default constructor arguments. -/
def optsDefault : InitOptions := {}

/-- Default arguments except the sketch tool (source stays upload). -/
def optsSketchUpload : InitOptions := { tool := some "sketch" }

/-- Default arguments except an unrecognized tool value. -/
def optsBadTool : InitOptions := { tool := some "bogus" }

/-- Default arguments except streaming on (source stays upload). -/
def optsStreamUpload : InitOptions := { streaming := true }

/-- Streaming on together with the webcam source. -/
def optsStreamWebcam : InitOptions := { streaming := true, source := "webcam" }

/-- The instance the default arguments construct. -/
def cfgDefault : LegacyImage :=
  { mirror_webcam := true, type := "numpy", height := none, width := none,
    image_mode := "RGB", streaming := false, show_download_button := true,
    show_share_button := false, source := "upload", tool := "editor",
    invert_colors := false, shape := none }

/-- The instance `optsSketchUpload` constructs. -/
def cfgSketchUpload : LegacyImage := { cfgDefault with tool := "sketch" }

/-- The instance `optsBadTool` constructs. -/
def cfgBadTool : LegacyImage := { cfgDefault with tool := "bogus" }

/-- The instance `optsStreamWebcam` constructs. -/
def cfgStreamWebcam : LegacyImage :=
  { cfgDefault with streaming := true, source := "webcam" }

theorem preprocess_eq_of_no_back (ops : PILOps) (cfg : LegacyImage) (mm : Option String) :
    LegacyImage.preprocess ops cfg (some { back := none, mask := mm }) =
      Except.error PyError.attributeError := rfl

theorem preprocess_eq_of_not_sketch (ops : PILOps) (cfg : LegacyImage)
    (bg : String) (mm : Option String)
    (h : ¬ (cfg.tool = "sketch" ∧ (cfg.source = "upload" ∨ cfg.source = "webcam"))) :
    LegacyImage.preprocess ops cfg (some { back := some bg, mask := mm }) =
      Except.ok (some
        { back := some (ops.format_image cfg.type
            (specTransformChain ops cfg (ops.decode_base64_to_image bg))),
          mask := none }) := by
  simp only [LegacyImage.preprocess, specTransformChain, if_neg h]

theorem preprocess_eq_of_sketch_mask (ops : PILOps) (cfg : LegacyImage)
    (bg ms : String)
    (h : cfg.tool = "sketch" ∧ (cfg.source = "upload" ∨ cfg.source = "webcam")) :
    LegacyImage.preprocess ops cfg (some { back := some bg, mask := some ms }) =
      Except.ok (some
        { back := some (ops.format_image cfg.type
            (specTransformChain ops cfg (ops.decode_base64_to_image bg))),
          mask := some (ops.format_image cfg.type
            (maskFlatten ops (ops.decode_base64_to_image ms))) }) := by
  simp only [LegacyImage.preprocess, specTransformChain, if_pos h, Option.map]

theorem preprocess_eq_of_sketch_no_mask (ops : PILOps) (cfg : LegacyImage)
    (bg : String)
    (h : cfg.tool = "sketch" ∧ (cfg.source = "upload" ∨ cfg.source = "webcam")) :
    LegacyImage.preprocess ops cfg (some { back := some bg, mask := none }) =
      Except.error PyError.attributeError := by
  simp only [LegacyImage.preprocess, if_pos h, Option.map]

theorem maskFlatten_mode_of_rgba (ops : PILOps) (m : PILImage) (h : m.mode = "RGBA") :
    (maskFlatten ops m).mode = "RGB" := by
  simp only [maskFlatten, if_pos h, imageMerge]

theorem maskFlatten_px_of_rgba (ops : PILOps) (m : PILImage) (h : m.mode = "RGBA")
    (r c : Nat) :
    (maskFlatten ops m).px r c =
      [(m.px r c).getD 3 0, (m.px r c).getD 3 0, (m.px r c).getD 3 0] := by
  simp only [maskFlatten, if_pos h, PILImage.convert, PILImage.getchannel, imageMerge, h]
  simp [List.map, List.getD]

/-- C1: the claim says that with tool sketch and source upload/webcam a
payload with a present background and an absent mask succeeds with mask None.
The code instead reaches the unguarded `mask_im.mode` attribute access (line
197) with `mask_im = None` and raises AttributeError: evaluated here on a
validly constructed sketch/upload instance and a concrete payload. -/
theorem preprocess_sketch_absent_mask_attribute_error :
    LegacyImage.init false optsSketchUpload = Except.ok cfgSketchUpload ∧
    LegacyImage.preprocess ops0 cfgSketchUpload
        (some { back := some "aW1n", mask := none }) =
      Except.error PyError.attributeError :=
  ⟨rfl, rfl⟩

/-- C2 counterexample: on the validly constructed default configuration, a
present payload object whose background field is None is not passed through
as None; preprocess attempts to decode the absent background and raises. -/
theorem preprocess_none_background_payload_errors :
    LegacyImage.init false optsDefault = Except.ok cfgDefault ∧
    LegacyImage.preprocess ops0 cfgDefault (some { back := none, mask := none }) =
      Except.error PyError.attributeError ∧
    LegacyImage.preprocess ops0 cfgDefault (some { back := none, mask := none }) ≠
      Except.ok none :=
  ⟨rfl, rfl, fun hcontra => Except.noConfusion hcontra⟩

/-- C2 (amended): ingestion of an absent (None) payload returns None, a valid
non-error terminal result, for every configuration and collaborator set,
without decoding anything; but a present payload object whose background
field is None is not passed through: preprocess attempts to decode the absent
background and raises AttributeError. -/
theorem preprocess_none_passthrough :
    (∀ (ops : PILOps) (cfg : LegacyImage),
      LegacyImage.preprocess ops cfg none = Except.ok none) ∧
    (∀ (ops : PILOps) (cfg : LegacyImage) (d : ImageData), d.back = none →
      LegacyImage.preprocess ops cfg (some d) = Except.error PyError.attributeError) := by
  refine ⟨fun ops cfg => rfl, fun ops cfg d hd => ?_⟩
  obtain ⟨bk, mm⟩ := d
  cases hd
  rfl

/-- Witness for the amended C2 at concrete inputs. -/
theorem preprocess_none_passthrough_witness :
    LegacyImage.preprocess ops0 cfgDefault none = Except.ok none ∧
    LegacyImage.preprocess ops0 cfgDefault
        (some { back := none, mask := some "bWFzaw==" }) =
      Except.error PyError.attributeError :=
  ⟨preprocess_none_passthrough.1 ops0 cfgDefault,
   preprocess_none_passthrough.2 ops0 cfgDefault
     { back := none, mask := some "bWFzaw==" } rfl⟩

/-- C3 counterexample: construction with the unrecognized tool value "bogus"
does not fail; it succeeds and stores the value unchanged. -/
theorem init_accepts_unrecognized_tool :
    LegacyImage.init false optsBadTool = Except.ok cfgBadTool ∧
    cfgBadTool.tool = "bogus" :=
  ⟨rfl, rfl⟩

/-- C3 (amended): the constructor validates type and source against their
enumerations and checks the streaming/source combination, but never validates
tool: whenever those three checks pass, construction succeeds and the tool
field is the supplied value verbatim (or the source-derived default when the
argument is None). -/
theorem init_does_not_validate_tool (g : Bool) (o : InitOptions)
    (htype : o.type ∈ (["numpy", "pil", "filepath"] : List String))
    (hsource : o.source ∈ (["upload", "webcam", "canvas"] : List String))
    (hstream : o.streaming = true → o.source = "webcam") :
    LegacyImage.init g o = Except.ok
      { mirror_webcam := o.mirror_webcam, type := o.type, height := o.height,
        width := o.width, image_mode := o.image_mode, streaming := o.streaming,
        show_download_button := o.show_download_button,
        show_share_button := o.show_share_button.getD g, source := o.source,
        tool := o.tool.getD (if o.source = "canvas" then "sketch" else "editor"),
        invert_colors := o.invert_colors, shape := o.shape } := by
  have h1 : ¬ o.type ∉ (["numpy", "pil", "filepath"] : List String) :=
    fun hc => hc htype
  have h2 : ¬ o.source ∉ (["upload", "webcam", "canvas"] : List String) :=
    fun hc => hc hsource
  have h3 : ¬ (o.streaming = true ∧ o.source ≠ "webcam") :=
    fun hc => hc.2 (hstream hc.1)
  cases htool : o.tool <;>
    simp only [LegacyImage.init, if_neg h1, if_neg h2, if_neg h3, htool,
      Option.getD_none, Option.getD_some]

/-- Witness for the amended C3 at the default arguments. -/
theorem init_does_not_validate_tool_witness :
    LegacyImage.init false optsDefault = Except.ok
      { mirror_webcam := optsDefault.mirror_webcam, type := optsDefault.type,
        height := optsDefault.height, width := optsDefault.width,
        image_mode := optsDefault.image_mode, streaming := optsDefault.streaming,
        show_download_button := optsDefault.show_download_button,
        show_share_button := optsDefault.show_share_button.getD false,
        source := optsDefault.source,
        tool := optsDefault.tool.getD
          (if optsDefault.source = "canvas" then "sketch" else "editor"),
        invert_colors := optsDefault.invert_colors, shape := optsDefault.shape } :=
  init_does_not_validate_tool false optsDefault (by decide) (by decide)
    (fun hc => absurd hc (by decide))

/-- C4: for every collaborator set, every configuration and every payload
with a present background (and, in the sketch/upload-or-webcam combination, a
present mask, which keeps that branch from raising), preprocess produces the
background by exactly the transform chain the specification states: mode
conversion first, then the optional resize-and-crop, then the optional
inversion, then the horizontal mirror exactly when the source is the webcam,
mirroring is enabled and the tool is not color-sketch. -/
theorem preprocess_applies_specTransformChain (ops : PILOps) (cfg : LegacyImage)
    (d : ImageData) (bg : String) (hbg : d.back = some bg)
    (hm : cfg.tool = "sketch" ∧ (cfg.source = "upload" ∨ cfg.source = "webcam") →
      d.mask.isSome = true) :
    ∃ maskOut : Option PyObj,
      LegacyImage.preprocess ops cfg (some d) =
        Except.ok (some
          { back := some (ops.format_image cfg.type
              (specTransformChain ops cfg (ops.decode_base64_to_image bg))),
            mask := maskOut }) := by
  obtain ⟨bk, mm⟩ := d
  cases hbg
  by_cases h : cfg.tool = "sketch" ∧ (cfg.source = "upload" ∨ cfg.source = "webcam")
  · obtain ⟨ms, hms⟩ := Option.isSome_iff_exists.mp (hm h)
    cases hms
    exact ⟨_, preprocess_eq_of_sketch_mask ops cfg bg ms h⟩
  · exact ⟨none, preprocess_eq_of_not_sketch ops cfg bg mm h⟩

/-- Witness for C4 at concrete inputs. -/
theorem preprocess_applies_specTransformChain_witness :
    ∃ maskOut : Option PyObj,
      LegacyImage.preprocess ops0 cfgDefault
          (some { back := some "aW1n", mask := none }) =
        Except.ok (some
          { back := some (ops0.format_image cfgDefault.type
              (specTransformChain ops0 cfgDefault
                (ops0.decode_base64_to_image "aW1n"))),
            mask := maskOut }) :=
  preprocess_applies_specTransformChain ops0 cfgDefault
    { back := some "aW1n", mask := none } "aW1n" rfl
    (fun hc => absurd hc.1 (by decide))

/-- C5: with tool sketch, source upload or webcam and a present mask whose
decoded raster is RGBA, preprocess flattens the mask to a mode RGB raster
whose three channels each equal the original alpha channel (band index 3 of
RGBA), hence are pairwise equal at every pixel, and returns it (converted by
the configured output kind) in the mask slot. -/
theorem preprocess_flattens_rgba_mask (ops : PILOps) (cfg : LegacyImage)
    (d : ImageData) (bg ms : String)
    (htool : cfg.tool = "sketch")
    (hsrc : cfg.source = "upload" ∨ cfg.source = "webcam")
    (hbg : d.back = some bg) (hms : d.mask = some ms)
    (hrgba : (ops.decode_base64_to_image ms).mode = "RGBA") :
    ∃ flat : PILImage,
      LegacyImage.preprocess ops cfg (some d) =
        Except.ok (some
          { back := some (ops.format_image cfg.type
              (specTransformChain ops cfg (ops.decode_base64_to_image bg))),
            mask := some (ops.format_image cfg.type flat) }) ∧
      flat.mode = "RGB" ∧
      ∀ r c : Nat,
        (flat.px r c).getD 0 0 =
          ((ops.decode_base64_to_image ms).px r c).getD 3 0 ∧
        (flat.px r c).getD 1 0 = (flat.px r c).getD 0 0 ∧
        (flat.px r c).getD 2 0 = (flat.px r c).getD 0 0 := by
  obtain ⟨bk, mm⟩ := d
  cases hbg
  cases hms
  refine ⟨maskFlatten ops (ops.decode_base64_to_image ms),
    preprocess_eq_of_sketch_mask ops cfg bg ms ⟨htool, hsrc⟩,
    maskFlatten_mode_of_rgba ops _ hrgba, fun r c => ?_⟩
  rw [maskFlatten_px_of_rgba ops _ hrgba r c]
  simp [List.getD]

/-- Witness for C5 at concrete inputs (the decoded mask is the concrete RGBA
raster `rgbaMask`). -/
theorem preprocess_flattens_rgba_mask_witness :
    ∃ flat : PILImage,
      LegacyImage.preprocess ops0 cfgSketchUpload
          (some { back := some "aW1n", mask := some "bWFzaw==" }) =
        Except.ok (some
          { back := some (ops0.format_image cfgSketchUpload.type
              (specTransformChain ops0 cfgSketchUpload
                (ops0.decode_base64_to_image "aW1n"))),
            mask := some (ops0.format_image cfgSketchUpload.type flat) }) ∧
      flat.mode = "RGB" ∧
      ∀ r c : Nat,
        (flat.px r c).getD 0 0 =
          ((ops0.decode_base64_to_image "bWFzaw==").px r c).getD 3 0 ∧
        (flat.px r c).getD 1 0 = (flat.px r c).getD 0 0 ∧
        (flat.px r c).getD 2 0 = (flat.px r c).getD 0 0 :=
  preprocess_flattens_rgba_mask ops0 cfgSketchUpload
    { back := some "aW1n", mask := some "bWFzaw==" } "aW1n" "bWFzaw=="
    rfl (Or.inl rfl) rfl rfl (by decide)

/-- C6: for every payload with a present background (with or without a mask
payload) and every configuration whose tool is not sketch, the ingestion
result has mask None. -/
theorem preprocess_non_sketch_mask_none (ops : PILOps) (cfg : LegacyImage)
    (d : ImageData) (bg : String)
    (htool : cfg.tool ≠ "sketch") (hbg : d.back = some bg) :
    ∃ backOut : Option PyObj,
      LegacyImage.preprocess ops cfg (some d) =
        Except.ok (some { back := backOut, mask := none }) := by
  obtain ⟨bk, mm⟩ := d
  cases hbg
  exact ⟨_, preprocess_eq_of_not_sketch ops cfg bg mm (fun hc => htool hc.1)⟩

/-- Witness for C6: the editor-tool default configuration with a mask payload
supplied still yields mask None. -/
theorem preprocess_non_sketch_mask_none_witness :
    ∃ backOut : Option PyObj,
      LegacyImage.preprocess ops0 cfgDefault
          (some { back := some "aW1n", mask := some "bWFzaw==" }) =
        Except.ok (some { back := backOut, mask := none }) :=
  preprocess_non_sketch_mask_none ops0 cfgDefault
    { back := some "aW1n", mask := some "bWFzaw==" } "aW1n" (by decide) rfl

/-- C7: egestion of None returns None, and egestion of a value whose back
slot is none of the three supported variants (numeric array, image object,
path/URL string) — including a Python None back and any other runtime object —
raises the ValueError of line 230 instead of silently coercing. -/
theorem postprocess_none_and_unsupported :
    (∀ ops : PILOps, LegacyImage.postprocess ops none = Except.ok none) ∧
    (∀ (ops : PILOps) (d : PreprocessData), supportedBack d.back = false →
      LegacyImage.postprocess ops (some d) =
        Except.error (PyError.valueError "Cannot process this value as an Image")) := by
  refine ⟨fun ops => rfl, fun ops d hd => ?_⟩
  obtain ⟨bk, mm⟩ := d
  cases bk with
  | none => rfl
  | some o =>
    cases o with
    | ndarray a => exact absurd hd (by simp [supportedBack])
    | pilImage im => exact absurd hd (by simp [supportedBack])
    | pyStr s => exact absurd hd (by simp [supportedBack])
    | pyPath p => exact absurd hd (by simp [supportedBack])
    | pyOther t => rfl

/-- Witness for C7 at concrete inputs (the unsupported back slot holds a
runtime object that is none of the three variants). -/
theorem postprocess_none_and_unsupported_witness :
    LegacyImage.postprocess ops0 none = Except.ok none ∧
    LegacyImage.postprocess ops0
        (some { back := some (PyObj.pyOther "int"), mask := none }) =
      Except.error (PyError.valueError "Cannot process this value as an Image") :=
  ⟨postprocess_none_and_unsupported.1 ops0,
   postprocess_none_and_unsupported.2 ops0
     { back := some (PyObj.pyOther "int"), mask := none } rfl⟩

/-- C8: for every value whose back slot is one of the three supported
variants, the wire payload has mask None and its back is the base64 string
produced by the encoder matching the variant. -/
theorem postprocess_supported_payload_shape (ops : PILOps) (d : PreprocessData)
    (hd : supportedBack d.back = true) :
    ∃ s : String,
      LegacyImage.postprocess ops (some d) =
        Except.ok (some { back := some s, mask := none }) ∧
      (∀ a, d.back = some (PyObj.ndarray a) → s = ops.encode_array_to_base64 a) ∧
      (∀ im, d.back = some (PyObj.pilImage im) → s = ops.encode_pil_to_base64 im) ∧
      (∀ p, d.back = some (PyObj.pyStr p) ∨ d.back = some (PyObj.pyPath p) →
        s = ops.encode_url_or_file_to_base64 p) := by
  obtain ⟨bk, mm⟩ := d
  cases bk with
  | none => exact absurd hd (by simp [supportedBack])
  | some o =>
    cases o with
    | ndarray a =>
      refine ⟨ops.encode_array_to_base64 a, rfl, fun a2 ha => ?_, fun im hi => ?_,
        fun p hp => ?_⟩
      · obtain rfl : a = a2 := by simpa using ha
        rfl
      · simp at hi
      · rcases hp with hp | hp <;> simp at hp
    | pilImage im =>
      refine ⟨ops.encode_pil_to_base64 im, rfl, fun a2 ha => ?_, fun im2 hi => ?_,
        fun p hp => ?_⟩
      · simp at ha
      · obtain rfl : im = im2 := by simpa using hi
        rfl
      · rcases hp with hp | hp <;> simp at hp
    | pyStr s =>
      refine ⟨ops.encode_url_or_file_to_base64 s, rfl, fun a2 ha => ?_,
        fun im2 hi => ?_, fun p hp => ?_⟩
      · simp at ha
      · simp at hi
      · rcases hp with hp | hp
        · obtain rfl : s = p := by simpa using hp
          rfl
        · simp at hp
    | pyPath p0 =>
      refine ⟨ops.encode_url_or_file_to_base64 p0, rfl, fun a2 ha => ?_,
        fun im2 hi => ?_, fun p hp => ?_⟩
      · simp at ha
      · simp at hi
      · rcases hp with hp | hp
        · simp at hp
        · obtain rfl : p0 = p := by simpa using hp
          rfl
    | pyOther t => exact absurd hd (by simp [supportedBack])

/-- Witness for C8 on a path/URL string value. -/
theorem postprocess_supported_payload_shape_witness :
    ∃ s : String,
      LegacyImage.postprocess ops0
          (some { back := some (PyObj.pyStr "https://x.test/bus.png"),
                  mask := none }) =
        Except.ok (some { back := some s, mask := none }) ∧
      (∀ a, (some (PyObj.pyStr "https://x.test/bus.png") : Option PyObj) =
          some (PyObj.ndarray a) → s = ops0.encode_array_to_base64 a) ∧
      (∀ im, (some (PyObj.pyStr "https://x.test/bus.png") : Option PyObj) =
          some (PyObj.pilImage im) → s = ops0.encode_pil_to_base64 im) ∧
      (∀ p, (some (PyObj.pyStr "https://x.test/bus.png") : Option PyObj) =
            some (PyObj.pyStr p) ∨
          (some (PyObj.pyStr "https://x.test/bus.png") : Option PyObj) =
            some (PyObj.pyPath p) →
        s = ops0.encode_url_or_file_to_base64 p) :=
  postprocess_supported_payload_shape ops0
    { back := some (PyObj.pyStr "https://x.test/bus.png"), mask := none } rfl

/-- C9: streaming enabled with any non-webcam source makes construction fail
with a ValueError, while streaming with the webcam source (and a valid type)
is accepted. -/
theorem init_streaming_requires_webcam :
    (∀ (g : Bool) (o : InitOptions), o.streaming = true → o.source ≠ "webcam" →
      ∃ msg : String,
        LegacyImage.init g o = Except.error (PyError.valueError msg)) ∧
    (∀ (g : Bool) (o : InitOptions), o.streaming = true → o.source = "webcam" →
      o.type ∈ (["numpy", "pil", "filepath"] : List String) →
      ∃ cfg : LegacyImage, LegacyImage.init g o = Except.ok cfg) := by
  constructor
  · intro g o hs hw
    by_cases h1 : o.type ∉ (["numpy", "pil", "filepath"] : List String)
    · refine ⟨"Invalid value for parameter type: " ++ o.type, ?_⟩
      unfold LegacyImage.init
      rw [if_pos h1]
    · by_cases h2 : o.source ∉ (["upload", "webcam", "canvas"] : List String)
      · refine ⟨"Invalid value for parameter source: " ++ o.source, ?_⟩
        unfold LegacyImage.init
        rw [if_neg h1, if_pos h2]
      · refine ⟨"Image streaming only available if source is webcam.", ?_⟩
        unfold LegacyImage.init
        rw [if_neg h1, if_neg h2,
          if_pos (show o.streaming = true ∧ o.source ≠ "webcam" from ⟨hs, hw⟩)]
  · intro g o hs hw htype
    have h1 : ¬ o.type ∉ (["numpy", "pil", "filepath"] : List String) :=
      fun hc => hc htype
    have h2 : ¬ o.source ∉ (["upload", "webcam", "canvas"] : List String) :=
      fun hc => hc (by rw [hw]; decide)
    have h3 : ¬ (o.streaming = true ∧ o.source ≠ "webcam") := fun hc => hc.2 hw
    apply Exists.intro
    unfold LegacyImage.init
    rw [if_neg h1, if_neg h2, if_neg h3]

/-- Witness for C9: streaming with the upload source fails, streaming with
the webcam source succeeds. -/
theorem init_streaming_requires_webcam_witness :
    (∃ msg : String,
      LegacyImage.init false optsStreamUpload =
        Except.error (PyError.valueError msg)) ∧
    (∃ cfg : LegacyImage,
      LegacyImage.init false optsStreamWebcam = Except.ok cfg) :=
  ⟨init_streaming_requires_webcam.1 false optsStreamUpload rfl (by decide),
   init_streaming_requires_webcam.2 false optsStreamWebcam rfl rfl (by decide)⟩

/-- C10: for every successfully constructed instance with streaming enabled,
check_streamable raises: its guard reads the `sources` attribute, which the
constructor never assigns (it assigns only the singular `source`), so the
attribute access raises AttributeError and the streaming-validity check can
never pass silently. -/
theorem check_streamable_raises_when_streaming (g : Bool) (o : InitOptions)
    (cfg : LegacyImage) (_h : LegacyImage.init g o = Except.ok cfg)
    (hs : cfg.streaming = true) :
    LegacyImage.check_streamable cfg = Except.error PyError.attributeError := by
  simp [LegacyImage.check_streamable, LegacyImage.getattrSources, hs]

/-- Witness for C10 on the streaming webcam instance. -/
theorem check_streamable_raises_when_streaming_witness :
    LegacyImage.check_streamable cfgStreamWebcam =
      Except.error PyError.attributeError :=
  check_streamable_raises_when_streaming false optsStreamWebcam
    cfgStreamWebcam rfl rfl
